import Mathlib

/-!
# Verification of the GenshinImpactGram profile pipeline

Shallow embedding of the core slice of the repository:

* `src/plugins/genshin/player_cards.py` — remote profile fetch with history
  merge and TTL cache (`PlayerCards._update_enka_data`), the callback
  handlers (`update_player_card`, `get_player_cards`), the pagination
  builder (`PlayerCards.gen_button`), the artifact scoring model
  (`Artifact`, `RenderTemplate.render`) and the copy-before-mutate render
  path (`RenderTemplate.__init__` / `cache_images`).
* `src/core/services/wiki/cache.py` — `WikiCache.get`.
* `src/plugins/genshin/stats.py` — `PlayerStatsPlugins.render`.

Numeric scores are modelled over `ℚ` (the Python code uses floats; all
constants of the threshold table are exactly representable and all
comparisons are order comparisons, so `ℚ` is the faithful idealisation).
External collaborators (Redis, the Enka HTTP client, the `json` module,
the template renderer, `download_resource`) are modelled as oracles or
function parameters; the control flow around them is translated from the
source line by line.
-/

namespace GenshinGram

/-! ## Scoring engine (`player_cards.py`, `Artifact` / `RenderTemplate.render`) -/

/-- The fixed ascending grade/threshold table, written out identically at
`player_cards.py` lines 412-422 (in `Artifact.__init__`) and lines 465-475
(in `RenderTemplate.render`). -/
def gradeTable : List (String × ℚ) :=
  [("D", 10), ("C", 16.5), ("B", 23.1), ("A", 29.7), ("S", 36.3),
   ("SS", 42.9), ("SSS", 49.5), ("ACE", 56.1), ("ACE²", 66)]

/-- The letter-grade loop of `Artifact.__init__` (lines 406-425): start from
the default label `"E"` and overwrite it with `r[0]` for every table row
whose threshold is `≤ score`; the last (highest) satisfied row wins. -/
def scoreLabel (score : ℚ) : String :=
  gradeTable.foldl (fun label r => if score ≥ r.2 then r.1 else label) "E"

/-- `Artifact.get_score_class` (lines 427-440): `mapping.get(label, "text-neutral-400")`. -/
def getScoreClass (label : String) : String :=
  match label with
  | "D" => "text-neutral-400"
  | "C" => "text-neutral-200"
  | "B" => "text-violet-400"
  | "A" => "text-violet-400"
  | "S" => "text-yellow-400"
  | "SS" => "text-yellow-400"
  | "SSS" => "text-yellow-400"
  | "ACE" => "text-red-500"
  | "ACE²" => "text-red-500"
  | _ => "text-neutral-400"

/-- Python's `round(x, 1)` (banker's rounding, round-half-to-even) on exact
rationals: used by `Artifact.__init__` (`round(self.score, 1)`, line 410) and
`RenderTemplate.render` (`round(artifact_total_score, 1)`, line 462). -/
def pyRound1 (x : ℚ) : ℚ :=
  let y := 10 * x
  let f : ℤ := ⌊y⌋
  let r := y - (f : ℚ)
  let n : ℤ :=
    if r < 1 / 2 then f
    else if 1 / 2 < r then f + 1
    else if f % 2 = 0 then f else f + 1
  (n : ℚ) / 10

/-- The `Artifact` pydantic model of `player_cards.py` lines 393-425:
`score` (rounded sum of the substat scores), `score_label` and
`score_class` as computed by `__init__`. -/
structure Artifact where
  substat_scores : List ℚ
  score : ℚ
  score_label : String
  score_class : String

/-- `Artifact.__init__`: sum the substat scores, round to one decimal, then
run the threshold loop.  The loop assigns `score_label` and `score_class`
*together*, and only when `score >= r[1]` fires for some row: below the
lowest threshold both keep their field defaults (`"E"`, `""`). -/
def mkArtifact (substat_scores : List ℚ) : Artifact :=
  let score := pyRound1 (substat_scores.foldl (· + ·) 0)
  let lc :=
    gradeTable.foldl
      (fun acc r => if score ≥ r.2 then (r.1, getScoreClass r.1) else acc)
      ("E", "")
  ⟨substat_scores, score, lc.1, lc.2⟩

/-- The aggregate grading loop of `RenderTemplate.render` (lines 464-477):
same table, same default `"E"`, but the comparison is
`artifact_total_score / 5 >= r[1]` — the divisor `5` is a literal in the
source, independent of how many artifacts are equipped. -/
def artifactTotalScoreLabel (total : ℚ) : String :=
  gradeTable.foldl (fun label r => if total / 5 ≥ r.2 then r.1 else label) "E"

/-- `RenderTemplate.render` lines 460-477 restricted to the aggregate label:
`artifact_total_score = round(sum(artifact.score ...), 1)` followed by the
grading loop above. -/
def renderArtifactTotalLabel (artifactScores : List ℚ) : String :=
  artifactTotalScoreLabel (pyRound1 (artifactScores.foldl (· + ·) 0))

/-- Refinement reference for C3, following the spec's words only:
"grade = highest threshold ≤ total, default lowest grade if below all
thresholds" — the last (hence highest, the table being ascending) row of
the table whose threshold is `≤ x`, defaulting to `"E"`. -/
def specGrade (x : ℚ) : String :=
  match (gradeTable.filter fun r => decide (r.2 ≤ x)).getLast? with
  | some r => r.1
  | none => "E"

/-- Verification helper: position of a label in the ascending grade order
`E < D < C < B < A < S < SS < SSS < ACE < ACE²`. -/
def gradeRank (label : String) : ℕ :=
  match label with
  | "D" => 1
  | "C" => 2
  | "B" => 3
  | "A" => 4
  | "S" => 5
  | "SS" => 6
  | "SSS" => 7
  | "ACE" => 8
  | "ACE²" => 9
  | _ => 0

/-! ## Remote profile fetcher (`PlayerCards._update_enka_data`, lines 68-95) -/

/-- The eight exception kinds caught by `_update_enka_data`, in the order of
its `except` clauses: `AioHttpTimeoutException`, `EnkaServerRateLimit`,
`EnkaServerMaintanance`, `EnkaServerError`, `EnkaServerUnknown`,
`EnkaPlayerNotFound`, `VaildateUIDError`, `HTTPException`.  These are the
failure modes of the external HTTP client / enka library. -/
inductive EnkaError where
  | timeout
  | rateLimited
  | maintenance
  | serverError
  | serverUnknown
  | playerNotFound
  | invalidIdentifier
  | httpError
deriving DecidableEq, Repr

/-- The fixed user-facing message of each exception arm (lines 79-94). -/
def errorMessage : EnkaError → String
  | .timeout => "Enka.Network 服务请求超时，请稍后重试"
  | .rateLimited => "Enka.Network 已对此API进行速率限制，请稍后重试"
  | .maintenance => "Enka.Network 正在维护，请等待5-8小时或1天"
  | .serverError => "Enka.Network 服务请求错误，请稍后重试"
  | .serverUnknown => "Enka.Network 服务瞬间爆炸，请稍后重试"
  | .playerNotFound => "UID 未找到，可能为服务器抽风，请稍后重试"
  | .invalidIdentifier => "未找到玩家，请检查您的UID/用户名"
  | .httpError => "Enka.Network HTTP 服务请求错误，请稍后重试"

/-- Observable I/O actions of `_update_enka_data`, in program order.
`cacheSet` records the TTL: the `RedisCache` is constructed with `ex=60`
(line 62); its `set` applying that fixed expiry is in `utils/enkanetwork`,
outside this slice, and is modelled from the spec ("a fixed TTL"). -/
inductive FetchEffect (α : Type) where
  | cacheGet (uid : ℕ)
  | remoteFetch (uid : ℕ)
  | historyMerge (uid : ℕ) (merged : α)
  | cacheSet (uid : ℕ) (value : α) (ttl : ℕ)
deriving DecidableEq, Repr

/-- Oracle for the awaited collaborators of one `_update_enka_data` run:
the cached snapshot (`self.cache.get(uid)`), the remote call outcome
(`fetch_user_by_uid` + decode, or one of the eight exceptions), and the
history merge (`player_cards_file.merge_info`). -/
structure FetchOracle (α : Type) where
  cached : Option α
  remote : Except EnkaError α
  merged : α → α

/-- `PlayerCards._update_enka_data` (lines 68-95): cache hit returns the
cached snapshot; on a miss the remote payload is merged into history
(line 76), the merged snapshot is written to the cache (line 77) and
returned (line 78); each caught exception yields its fixed message
string instead.  The second component is the trace of I/O actions. -/
def updateEnkaData {α : Type} (uid : ℕ) (o : FetchOracle α) :
    Except String α × List (FetchEffect α) :=
  match o.cached with
  | some d => (.ok d, [.cacheGet uid])
  | none =>
    match o.remote with
    | .error e => (.error (errorMessage e), [.cacheGet uid, .remoteFetch uid])
    | .ok payload =>
      let m := o.merged payload
      (.ok m, [.cacheGet uid, .remoteFetch uid, .historyMerge uid m, .cacheSet uid m 60])

/-- Joint state of the durable history store and the TTL cache for one uid,
snapshots abstracted to version numbers (larger = newer). -/
structure FetchState where
  cache : Option ℕ
  history : Option ℕ
deriving DecidableEq, Repr

/-- Effect of one I/O action on the two stores: `historyMerge` writes the
history store, `cacheSet` writes the cache, reads change nothing. -/
def applyFetchWrite (s : FetchState) : FetchEffect ℕ → FetchState
  | .historyMerge _ v => { s with history := some v }
  | .cacheSet _ v _ => { s with cache := some v }
  | _ => s

/-- "The cache does not hold a snapshot newer than the history store's":
an occupied cache entry requires an at-least-as-new history entry. -/
def cacheLeHistory (s : FetchState) : Bool :=
  match s.cache, s.history with
  | none, _ => true
  | some _, none => false
  | some v, some w => v ≤ w

/-! ## `WikiCache` (`src/core/services/wiki/cache.py`) -/

/-- Python values as far as `WikiCache.get` can observe them. -/
inductive PyObj where
  | pyNone
  | pyInt (n : ℤ)
  | pyStr (s : String)
  | pyList (xs : List PyObj)
  | pyDict (kvs : List (String × PyObj))

/-- `json.loads(item)` for a list element (line 36): raises `TypeError`
unless the element is a string, in which case it defers to the `json`
module (the `loads` parameter, an external collaborator). -/
def itemLoads (loads : String → Except Unit PyObj) : PyObj → Except Unit PyObj
  | .pyStr s => loads s
  | _ => .error ()

/-- `WikiCache.get` (lines 27-37).  The `try` block guards only the
top-level `json.loads(await self.client.get(qname))`: absence (`loads` of
`None` raises `TypeError`) and malformed data both fall to `result = []`.
The element-wise `result[num] = json.loads(item)` loop (lines 34-36) runs
*outside* the guard, so an element failure propagates to the caller —
modelled by `Except.error`. -/
def wikiGet (loads : String → Except Unit PyObj) (stored : Option String) :
    Except Unit PyObj :=
  let result : PyObj :=
    match stored with
    | none => .pyList []
    | some s =>
      match loads s with
      | .error _ => .pyList []
      | .ok v => v
  match result with
  | .pyList xs =>
    if xs.length > 0 then (xs.mapM (itemLoads loads)).map PyObj.pyList
    else .ok (.pyList xs)
  | v => .ok v

/-! ## Pagination builder (`PlayerCards.gen_button`, lines 311-366) -/

/-- An `InlineKeyboardButton`: visible text plus opaque callback token. -/
structure Button where
  text : String
  callback_data : String
deriving DecidableEq, Repr

/-- A character-selection button (lines 322-329):
`f"get_player_card|{user_id}|{uid}|{value.name}"`. -/
def charButton (user_id uid : ℕ) (name : String) : Button :=
  ⟨name, "get_player_card|" ++ toString user_id ++ "|" ++ toString uid ++ "|" ++ name⟩

/-- The "previous page" control (lines 336-342). -/
def prevButton (user_id uid last_page : ℕ) : Button :=
  ⟨"<< 上一页", "get_player_card|" ++ toString user_id ++ "|" ++ toString uid ++ "|" ++ toString last_page⟩

/-- The "current/total" page indicator (lines 343-349). -/
def pageIndicatorButton (user_id uid page all_page : ℕ) : Button :=
  ⟨toString page ++ "/" ++ toString all_page,
    "get_player_card|" ++ toString user_id ++ "|" ++ toString uid ++ "|empty_data"⟩

/-- The "refresh panel" control (lines 350-356). -/
def updateButton (user_id uid : ℕ) : Button :=
  ⟨"更新面板", "update_player_card|" ++ toString user_id ++ "|" ++ toString uid⟩

/-- The "next page" control (lines 357-363). -/
def nextButton (user_id uid next_page : ℕ) : Button :=
  ⟨"下一页 >>", "get_player_card|" ++ toString user_id ++ "|" ++ toString uid ++ "|" ++ toString next_page⟩

/-- `[buttons[i : i + 4] for i in range(0, len(buttons), 4)]` (line 330):
rows of four. -/
def chunks4 {α : Type} : List α → List (List α)
  | [] => []
  | [a] => [[a]]
  | [a, b] => [[a, b]]
  | [a, b, c] => [[a, b, c]]
  | a :: b :: c :: d :: rest => [a, b, c, d] :: chunks4 rest

/-- `PlayerCards.gen_button` (lines 311-366), on the characters' names
(the only character data it reads; `if value.name` keeps exactly the
non-empty names).  `page` defaults to 1 and `update_button` to `True` in
the source. -/
def genButton (names : List String) (user_id uid : ℕ) (page : ℕ := 1)
    (update_button : Bool := true) : List (List Button) :=
  let buttons := (names.filter (fun n => n ≠ "")).map (charButton user_id uid)
  let all_buttons := chunks4 buttons
  let send_buttons := (all_buttons.drop ((page - 1) * 3)).take (page * 3 - (page - 1) * 3)
  let last_page := if page > 1 then page - 1 else 0
  let all_page := (all_buttons.length + 2) / 3
  let next_page := if page < all_page ∧ all_page > 1 then page + 1 else 0
  let last_button : List Button :=
    (if last_page ≠ 0 then [prevButton user_id uid last_page] else [])
      ++ (if last_page ≠ 0 ∨ next_page ≠ 0 then [pageIndicatorButton user_id uid page all_page] else [])
      ++ (if update_button then [updateButton user_id uid] else [])
      ++ (if next_page ≠ 0 then [nextButton user_id uid next_page] else [])
  if last_button ≠ [] then send_buttons ++ [last_button] else send_buttons

/-- The `all_page = math.ceil(len(all_buttons) / 3)` count (line 333) as a
standalone quantity: the total number of pages `gen_button` computes for a
roster. -/
def genButtonAllPage (names : List String) : ℕ :=
  ((chunks4 ((names.filter (fun n => n ≠ "")).map (charButton 0 0))).length + 2) / 3

/-! ## Callback handlers (`update_player_card` lines 194-237,
`get_player_cards` lines 239-309) -/

/-- The profile snapshot as the handlers observe it: the roster of
character names, `none` when the `characters` field is absent. -/
structure Snapshot where
  characters : Option (List String)
deriving DecidableEq, Repr

/-- Observable actions of one handler run, in program order. -/
inductive TgEffect where
  | answer (text : String) (showAlert : Bool)
  | chatAction
  | deleteMsg
  | enka (e : FetchEffect Snapshot)
  | renderTemplate
  | editMedia (buttons : List (List Button))
  | editMarkup (buttons : List (List Button))
  | editMediaRender
  | pythonError (kind : String)
deriving DecidableEq, Repr

/-- `"这不是你的按钮！\n" + config.notice.user_mismatch` (lines 209 / 262);
the configured notice text is a parameter. -/
def mismatchText (notice : String) : String := "这不是你的按钮！\n" ++ notice

/-- Line 226 / 291 showcase notice. -/
def showcaseText : String :=
  "请先将角色加入到角色展柜并允许查看角色详情后再使用此功能，如果已经添加了角色，请等待角色数据更新后重试"

/-- `PlayerCards.update_player_card` (lines 194-237) after decoding the
callback token into `(user_id, uid)`: `actingUser` is `user.id`, `ttl` the
`self.cache.ttl(uid)` oracle, `o` the `_update_enka_data` oracle. -/
def updatePlayerCardHandler (actingUser user_id uid : ℕ) (notice : String)
    (ttl : ℤ) (o : FetchOracle Snapshot) : List TgEffect :=
  if actingUser ≠ user_id then [.answer (mismatchText notice) true]
  else if ttl > 0 then [.answer ("请等待 " ++ toString ttl ++ " 秒后再更新") true]
  else
    [.chatAction, .answer "正在从 EnkaNetwork 获取角色列表 请不要重复点击按钮" false]
      ++ (updateEnkaData uid o).2.map .enka
      ++ match (updateEnkaData uid o).1 with
        | .error msg => [.answer msg true]
        | .ok snap =>
          match snap.characters with
          | none => [.deleteMsg, .answer showcaseText true]
          | some names =>
            [.renderTemplate, .editMedia (genButton names actingUser uid 1 false)]

/-- Python's `str.isdigit` restricted to ASCII, as used on callback
payloads (line 268); empty strings are not digits. -/
def pyIsDigit (s : String) : Bool := !s.isEmpty && s.all Char.isDigit

/-- `PlayerCards.get_player_cards` (lines 239-309) after decoding the
callback token into `(result, user_id, uid)`: `history` is the
`_load_history(uid)` oracle, `ttl` the `self.cache.ttl(uid)` oracle.
A `none` history makes the source dereference `None.characters`, an
uncaught `AttributeError`. -/
def getPlayerCardsHandler (actingUser user_id uid : ℕ) (result : String)
    (notice : String) (history : Option Snapshot) (ttl : ℤ) : List TgEffect :=
  if actingUser ≠ user_id then [.answer (mismatchText notice) true]
  else if result = "empty_data" then [.answer "此按钮不可用" true]
  else
    let page : ℕ := if pyIsDigit result then result.toNat?.getD 0 else 0
    match history with
    | none => [.pythonError "AttributeError"]
    | some snap =>
      match snap.characters with
      | none => [.deleteMsg, .answer showcaseText true]
      | some names =>
        if page ≠ 0 then
          [.editMarkup (genButton names actingUser uid page (!decide (ttl > 0))),
           .answer ("已切换到第 " ++ toString page ++ " 页") false]
        else if names.contains result then
          [.answer "正在渲染图片中 请稍等 请不要重复点击按钮" false, .chatAction,
           .renderTemplate, .editMediaRender]
        else
          [.deleteMsg,
           .answer ("角色展柜中未找到 " ++ result ++ " ，请检查角色是否存在于角色展柜中，或者等待角色数据更新后重试") true]

/-! ## Copy-before-mutate render paths
(`RenderTemplate.__init__` / `cache_images`, `player_cards.py` lines
443-453 and 555-572; `PlayerStatsPlugins.render` / `cache_images`,
`stats.py` lines 80-133).

Python objects are mutable and aliased, so the two render paths are
modelled over an explicit heap (reference → object value): the pydantic
`copy(deep=True)` stores an independent copy of the source object at a
fresh reference, and the in-place URL assignments of `cache_images`
update the object at the render's own reference. -/

/-- The character fields `cache_images` mutates (lines 555-572): the
banner URL, one icon URL per skill, per constellation, and per equipment
(`item.detail.icon.url`); `name` stands for the remaining, untouched
fields. -/
structure CharacterData where
  name : String
  bannerUrl : String
  skillIcons : List String
  constellationIcons : List String
  equipmentIcons : List String
deriving DecidableEq, Repr

/-- The value computed by `RenderTemplate.cache_images`' in-place
assignments: every remote URL replaced by `download_resource` (the
`mirror` parameter, an external collaborator). -/
def cacheImagesFn (mirror : String → String) (c : CharacterData) : CharacterData :=
  { c with
    bannerUrl := mirror c.bannerUrl
    skillIcons := c.skillIcons.map mirror
    constellationIcons := c.constellationIcons.map mirror
    equipmentIcons := c.equipmentIcons.map mirror }

/-- Heap update at one reference. -/
def heapSet {α : Type} (h : ℕ → α) (r : ℕ) (v : α) : ℕ → α :=
  fun x => if x = r then v else h x

/-- `RenderTemplate(uid, character, ...).render()` as it acts on character
objects: `__init__` clones the passed character to a fresh reference
(`character.copy(deep=True)`, line 453), and `render` starts by running
`cache_images` on that clone in place (line 457).  Returns the final heap
and the render's own reference. -/
def renderTemplateRun (h : ℕ → CharacterData) (orig fresh : ℕ)
    (mirror : String → String) : (ℕ → CharacterData) × ℕ :=
  let h1 := heapSet h fresh (h orig)
  let h2 := heapSet h1 fresh (cacheImagesFn mirror (h1 fresh))
  (h2, fresh)

/-- One exploration entry of the stats payload: `cache_images`
(`stats.py` lines 125-133) rewrites `icon` and `cover` in place. -/
structure ExplorationData where
  name : String
  icon : String
  cover : String
deriving DecidableEq, Repr

/-- The user-stats object as far as the stats render mutates it. -/
structure UserStatsData where
  explorations : List ExplorationData
deriving DecidableEq, Repr

/-- The value computed by `PlayerStatsPlugins.cache_images`' in-place
assignments. -/
def statsCacheImagesFn (mirror : String → String) (u : UserStatsData) : UserStatsData :=
  { explorations :=
      u.explorations.map fun e => { e with icon := mirror e.icon, cover := mirror e.cover } }

/-- `PlayerStatsPlugins.render` as it acts on the user-stats object:
`user_info = user_info.copy(deep=True)` (line 88) clones to a fresh
reference, then `cache_images(user_info)` (line 116) mutates the clone in
place. -/
def statsRenderRun (h : ℕ → UserStatsData) (orig fresh : ℕ)
    (mirror : String → String) : (ℕ → UserStatsData) × ℕ :=
  let h1 := heapSet h fresh (h orig)
  let h2 := heapSet h1 fresh (statsCacheImagesFn mirror (h1 fresh))
  (h2, fresh)

/-! ## Helper lemmas -/

/-- A grading fold over any threshold table computes the label of the last
table row whose threshold is satisfied, defaulting to the accumulator. -/
theorem foldl_grade_eq_filter_getLast (x : ℚ) :
    ∀ (t : List (String × ℚ)) (acc : String),
      t.foldl (fun label r => if x ≥ r.2 then r.1 else label) acc =
        match (t.filter fun r => decide (r.2 ≤ x)).getLast? with
        | some r => r.1
        | none => acc := by
  intro t
  induction t with
  | nil => intro acc; rfl
  | cons p rest ih =>
    intro acc
    rw [List.foldl_cons, List.filter_cons]
    by_cases h : p.2 ≤ x
    · rw [if_pos h, if_pos (by simpa using h)]
      rw [ih]
      rcases hr : rest.filter (fun r => decide (r.2 ≤ x)) with _ | ⟨q, qs⟩
      · rw [hr]; simp
      · rw [hr, List.getLast?_cons_cons]
        rcases hq : (q :: qs).getLast? with _ | z
        · exact absurd hq (by simp)
        · rfl
    · rw [if_neg h, if_neg (by simpa using h)]
      exact ih acc

/-- The first component of the paired label/class grading fold of
`Artifact.__init__` is the plain label fold. -/
theorem foldl_pair_fst (x : ℚ) :
    ∀ (t : List (String × ℚ)) (acc : String × String),
      (t.foldl (fun a r => if x ≥ r.2 then (r.1, getScoreClass r.1) else a) acc).1 =
        t.foldl (fun label r => if x ≥ r.2 then r.1 else label) acc.1 := by
  intro t
  induction t with
  | nil => intro acc; rfl
  | cons p rest ih =>
    intro acc
    rw [List.foldl_cons, List.foldl_cons]
    by_cases h : x ≥ p.2
    · rw [if_pos h, if_pos h]; exact ih _
    · rw [if_neg h, if_neg h]; exact ih _

/-- The second component of the paired grading fold: as long as every
table label differs from `"E"`, the class tracks the label — the lookup
value for assigned labels, the field default `""` otherwise. -/
theorem foldl_pair_snd (x : ℚ) :
    ∀ (t : List (String × ℚ)), (∀ p ∈ t, p.1 ≠ "E") →
      ∀ (acc : String × String),
        acc.2 = (if acc.1 = "E" then "" else getScoreClass acc.1) →
        (t.foldl (fun a r => if x ≥ r.2 then (r.1, getScoreClass r.1) else a) acc).2 =
          (if (t.foldl (fun a r => if x ≥ r.2 then (r.1, getScoreClass r.1) else a) acc).1 = "E"
            then "" else
              getScoreClass
                ((t.foldl (fun a r => if x ≥ r.2 then (r.1, getScoreClass r.1) else a) acc).1)) := by
  intro t
  induction t with
  | nil => intro _ acc hacc; exact hacc
  | cons p rest ih =>
    intro hE acc hacc
    rw [List.foldl_cons]
    by_cases h : x ≥ p.2
    · rw [if_pos h]
      refine ih (fun q hq => hE q (List.mem_cons_of_mem _ hq)) _ ?_
      have hp : p.1 ≠ "E" := hE p (List.mem_cons_self _ _)
      simp [hp]
    · rw [if_neg h]
      exact ih (fun q hq => hE q (List.mem_cons_of_mem _ hq)) acc hacc

/-- Rows of four: `chunks4` produces `⌈n/4⌉` rows. -/
theorem chunks4_length {α : Type} : ∀ l : List α, (chunks4 l).length = (l.length + 3) / 4
  | [] => by norm_num [chunks4]
  | [_] => by norm_num [chunks4]
  | [_, _] => by norm_num [chunks4]
  | [_, _, _] => by norm_num [chunks4]
  | _ :: _ :: _ :: _ :: rest => by
    have ih := chunks4_length rest
    simp only [chunks4, List.length_cons, ih]
    omega

/-- `chunks4` commutes with `map`. -/
theorem chunks4_map {α β : Type} (f : α → β) :
    ∀ l : List α, chunks4 (l.map f) = (chunks4 l).map (List.map f)
  | [] => rfl
  | [_] => rfl
  | [_, _] => rfl
  | [_, _, _] => rfl
  | _ :: _ :: _ :: _ :: rest => by
    simp only [List.map_cons, chunks4, chunks4_map f rest, List.map_nil]

/-- Unfolding the grading fold: the last satisfied row of the elif chain wins. -/
theorem scoreLabel_cases (x : ℚ) :
    scoreLabel x =
      if (66 : ℚ) ≤ x then "ACE²" else if (56.1 : ℚ) ≤ x then "ACE"
      else if (49.5 : ℚ) ≤ x then "SSS" else if (42.9 : ℚ) ≤ x then "SS"
      else if (36.3 : ℚ) ≤ x then "S" else if (29.7 : ℚ) ≤ x then "A"
      else if (23.1 : ℚ) ≤ x then "B" else if (16.5 : ℚ) ≤ x then "C"
      else if (10 : ℚ) ≤ x then "D" else "E" := rfl

/-- The grade rank of `scoreLabel` as a numeric elif chain. -/
theorem gradeRank_scoreLabel_cases (x : ℚ) :
    gradeRank (scoreLabel x) =
      if (66 : ℚ) ≤ x then 9 else if (56.1 : ℚ) ≤ x then 8
      else if (49.5 : ℚ) ≤ x then 7 else if (42.9 : ℚ) ≤ x then 6
      else if (36.3 : ℚ) ≤ x then 5 else if (29.7 : ℚ) ≤ x then 4
      else if (23.1 : ℚ) ≤ x then 3 else if (16.5 : ℚ) ≤ x then 2
      else if (10 : ℚ) ≤ x then 1 else 0 := by
  rw [scoreLabel_cases]
  split_ifs <;> rfl

theorem grSlLe9 (x : ℚ) : gradeRank (scoreLabel x) ≤ 9 := by
  rw [gradeRank_scoreLabel_cases]; split_ifs <;> omega

theorem grSlLe8 (x : ℚ) (h : x < 66) : gradeRank (scoreLabel x) ≤ 8 := by
  rw [gradeRank_scoreLabel_cases]; split_ifs <;> first | omega | linarith

theorem grSlLe7 (x : ℚ) (h : x < 56.1) : gradeRank (scoreLabel x) ≤ 7 := by
  rw [gradeRank_scoreLabel_cases]; split_ifs <;> first | omega | linarith

theorem grSlLe6 (x : ℚ) (h : x < 49.5) : gradeRank (scoreLabel x) ≤ 6 := by
  rw [gradeRank_scoreLabel_cases]; split_ifs <;> first | omega | linarith

theorem grSlLe5 (x : ℚ) (h : x < 42.9) : gradeRank (scoreLabel x) ≤ 5 := by
  rw [gradeRank_scoreLabel_cases]; split_ifs <;> first | omega | linarith

theorem grSlLe4 (x : ℚ) (h : x < 36.3) : gradeRank (scoreLabel x) ≤ 4 := by
  rw [gradeRank_scoreLabel_cases]; split_ifs <;> first | omega | linarith

theorem grSlLe3 (x : ℚ) (h : x < 29.7) : gradeRank (scoreLabel x) ≤ 3 := by
  rw [gradeRank_scoreLabel_cases]; split_ifs <;> first | omega | linarith

theorem grSlLe2 (x : ℚ) (h : x < 23.1) : gradeRank (scoreLabel x) ≤ 2 := by
  rw [gradeRank_scoreLabel_cases]; split_ifs <;> first | omega | linarith

theorem grSlLe1 (x : ℚ) (h : x < 16.5) : gradeRank (scoreLabel x) ≤ 1 := by
  rw [gradeRank_scoreLabel_cases]; split_ifs <;> first | omega | linarith

theorem grSlLe0 (x : ℚ) (h : x < 10) : gradeRank (scoreLabel x) ≤ 0 := by
  rw [gradeRank_scoreLabel_cases]; split_ifs <;> first | omega | linarith

theorem grSlGe9 (y : ℚ) (h : 66 ≤ y) : 9 ≤ gradeRank (scoreLabel y) := by
  rw [gradeRank_scoreLabel_cases]; split_ifs <;> first | omega | linarith

theorem grSlGe8 (y : ℚ) (h : 56.1 ≤ y) : 8 ≤ gradeRank (scoreLabel y) := by
  rw [gradeRank_scoreLabel_cases]; split_ifs <;> first | omega | linarith

theorem grSlGe7 (y : ℚ) (h : 49.5 ≤ y) : 7 ≤ gradeRank (scoreLabel y) := by
  rw [gradeRank_scoreLabel_cases]; split_ifs <;> first | omega | linarith

theorem grSlGe6 (y : ℚ) (h : 42.9 ≤ y) : 6 ≤ gradeRank (scoreLabel y) := by
  rw [gradeRank_scoreLabel_cases]; split_ifs <;> first | omega | linarith

theorem grSlGe5 (y : ℚ) (h : 36.3 ≤ y) : 5 ≤ gradeRank (scoreLabel y) := by
  rw [gradeRank_scoreLabel_cases]; split_ifs <;> first | omega | linarith

theorem grSlGe4 (y : ℚ) (h : 29.7 ≤ y) : 4 ≤ gradeRank (scoreLabel y) := by
  rw [gradeRank_scoreLabel_cases]; split_ifs <;> first | omega | linarith

theorem grSlGe3 (y : ℚ) (h : 23.1 ≤ y) : 3 ≤ gradeRank (scoreLabel y) := by
  rw [gradeRank_scoreLabel_cases]; split_ifs <;> first | omega | linarith

theorem grSlGe2 (y : ℚ) (h : 16.5 ≤ y) : 2 ≤ gradeRank (scoreLabel y) := by
  rw [gradeRank_scoreLabel_cases]; split_ifs <;> first | omega | linarith

theorem grSlGe1 (y : ℚ) (h : 10 ≤ y) : 1 ≤ gradeRank (scoreLabel y) := by
  rw [gradeRank_scoreLabel_cases]; split_ifs <;> first | omega | linarith

/-- Monotonicity of the grading loop, measured by the position of the
resulting label in the ascending grade order. -/
theorem gradeRank_scoreLabel_mono (x y : ℚ) (hxy : x ≤ y) :
    gradeRank (scoreLabel x) ≤ gradeRank (scoreLabel y) := by
  rcases le_or_lt 66 x with h9 | h9
  · exact le_trans (grSlLe9 x) (grSlGe9 y (le_trans h9 hxy))
  rcases le_or_lt 56.1 x with h8 | h8
  · exact le_trans (grSlLe8 x h9) (grSlGe8 y (le_trans h8 hxy))
  rcases le_or_lt 49.5 x with h7 | h7
  · exact le_trans (grSlLe7 x h8) (grSlGe7 y (le_trans h7 hxy))
  rcases le_or_lt 42.9 x with h6 | h6
  · exact le_trans (grSlLe6 x h7) (grSlGe6 y (le_trans h6 hxy))
  rcases le_or_lt 36.3 x with h5 | h5
  · exact le_trans (grSlLe5 x h6) (grSlGe5 y (le_trans h5 hxy))
  rcases le_or_lt 29.7 x with h4 | h4
  · exact le_trans (grSlLe4 x h5) (grSlGe4 y (le_trans h4 hxy))
  rcases le_or_lt 23.1 x with h3 | h3
  · exact le_trans (grSlLe3 x h4) (grSlGe3 y (le_trans h3 hxy))
  rcases le_or_lt 16.5 x with h2 | h2
  · exact le_trans (grSlLe2 x h3) (grSlGe2 y (le_trans h2 hxy))
  rcases le_or_lt 10 x with h1 | h1
  · exact le_trans (grSlLe1 x h2) (grSlGe1 y (le_trans h1 hxy))
  · exact le_trans (grSlLe0 x h1) (Nat.zero_le _)

/-! ## Claim theorems -/

/-- C1: on a cache miss with a successful remote fetch, `_update_enka_data`
returns the merged snapshot and performs exactly cache-read, remote-fetch,
history-merge, then one cache write of the merged snapshot with the fixed
TTL — in that order; consequently executing any prefix of its writes from a
cache-miss state never leaves the cache holding a snapshot newer than the
history store's. -/
theorem claim_C1_history_before_cache (uid : ℕ) (o : FetchOracle ℕ) (payload : ℕ)
    (hc : o.cached = none) (hr : o.remote = .ok payload) :
    updateEnkaData uid o =
      (.ok (o.merged payload),
        [.cacheGet uid, .remoteFetch uid, .historyMerge uid (o.merged payload),
         .cacheSet uid (o.merged payload) 60]) ∧
    ∀ s : FetchState, s.cache = none → ∀ k : ℕ,
      cacheLeHistory (((updateEnkaData uid o).2.take k).foldl applyFetchWrite s) = true := by
  obtain ⟨c, r, m⟩ := o
  simp only at hc hr
  subst hc hr
  refine ⟨rfl, ?_⟩
  rintro ⟨sc, sh⟩ hs k
  simp only at hs
  subst hs
  rcases k with _ | _ | _ | _ | k
  · rfl
  · rfl
  · rfl
  · rfl
  · simp [updateEnkaData, List.take_succ_cons, applyFetchWrite, cacheLeHistory]

/-- C1 witness: a concrete cache-miss fetch with payload 5 merged to 6. -/
theorem claim_C1_history_before_cache_witness :
    updateEnkaData 1 ({ cached := none, remote := .ok 5, merged := (· + 1) } : FetchOracle ℕ) =
      (.ok 6, [.cacheGet 1, .remoteFetch 1, .historyMerge 1 6, .cacheSet 1 6 60]) ∧
    cacheLeHistory
      (((updateEnkaData 1
            ({ cached := none, remote := .ok 5, merged := (· + 1) } : FetchOracle ℕ)).2.take 3).foldl
        applyFetchWrite ⟨none, none⟩) = true :=
  ⟨(claim_C1_history_before_cache 1 _ 5 rfl rfl).1,
   (claim_C1_history_before_cache 1 _ 5 rfl rfl).2 ⟨none, none⟩ rfl 3⟩

/-- C2: on a cache miss where the remote call fails, `_update_enka_data`
returns the failing kind's fixed message in place of a snapshot, performs no
history or cache write, and the message is one of the eight fixed
user-facing strings (`EnkaError` has exactly the eight caught kinds). -/
theorem claim_C2_error_mapping (uid : ℕ) (o : FetchOracle ℕ) (e : EnkaError)
    (hc : o.cached = none) (hr : o.remote = .error e) :
    (updateEnkaData uid o).1 = .error (errorMessage e) ∧
    (updateEnkaData uid o).2 = [.cacheGet uid, .remoteFetch uid] ∧
    errorMessage e ∈
      ["Enka.Network 服务请求超时，请稍后重试",
       "Enka.Network 已对此API进行速率限制，请稍后重试",
       "Enka.Network 正在维护，请等待5-8小时或1天",
       "Enka.Network 服务请求错误，请稍后重试",
       "Enka.Network 服务瞬间爆炸，请稍后重试",
       "UID 未找到，可能为服务器抽风，请稍后重试",
       "未找到玩家，请检查您的UID/用户名",
       "Enka.Network HTTP 服务请求错误，请稍后重试"] := by
  obtain ⟨c, r, m⟩ := o
  simp only at hc hr
  subst hc hr
  refine ⟨rfl, rfl, ?_⟩
  cases e <;> simp [errorMessage]

/-- C2 witness: the timeout kind at a concrete cache-miss oracle. -/
theorem claim_C2_error_mapping_witness :
    (updateEnkaData 1 ({ cached := none, remote := .error .timeout, merged := id } : FetchOracle ℕ)).1 =
      .error (errorMessage .timeout) :=
  (claim_C2_error_mapping 1 _ .timeout rfl rfl).1

/-- C3: the letter-grade function returns the highest grade whose threshold
is ≤ the total over the fixed ascending table (default `"E"` below all
thresholds), is monotonically non-decreasing in the total, and maps 10 to
`"D"`, 16.5 to `"C"`, 66 to the highest grade `"ACE²"`, 0 to `"E"`. -/
theorem claim_C3_grade_function :
    (∀ x : ℚ, scoreLabel x = specGrade x) ∧
    (∀ x y : ℚ, x ≤ y → gradeRank (scoreLabel x) ≤ gradeRank (scoreLabel y)) ∧
    scoreLabel 10 = "D" ∧ scoreLabel 16.5 = "C" ∧
    scoreLabel 66 = "ACE²" ∧ scoreLabel 0 = "E" := by
  refine ⟨fun x => foldl_grade_eq_filter_getLast x gradeTable "E",
    gradeRank_scoreLabel_mono, ?_, ?_, ?_, ?_⟩ <;>
    norm_num [scoreLabel, gradeTable]

/-- C3 witness: monotonicity applied at the concrete pair 0 ≤ 10. -/
theorem claim_C3_grade_function_witness :
    gradeRank (scoreLabel 0) ≤ gradeRank (scoreLabel 10) ∧ scoreLabel 10 = "D" :=
  ⟨claim_C3_grade_function.2.1 0 10 (by norm_num), claim_C3_grade_function.2.2.1⟩

/-- C4: the aggregate artifact grade of a render is the rounded sum of the
individual artifact scores divided by the fixed constant 5 — independent of
how many artifact scores the list holds — graded by exactly the same
threshold fold that grades one artifact's score. -/
theorem claim_C4_aggregate_grade :
    (∀ total : ℚ, artifactTotalScoreLabel total = scoreLabel (total / 5)) ∧
    (∀ scores : List ℚ,
      renderArtifactTotalLabel scores = scoreLabel (pyRound1 (scores.foldl (· + ·) 0) / 5)) :=
  ⟨fun _ => rfl, fun _ => rfl⟩

/-- C8 counterexample: an artifact whose score is below every threshold is
graded `"E"` but carries the empty presentation tag `""`, not the baseline
tag `"text-neutral-400"` the claim requires. -/
theorem claim_C8_counterexample :
    (mkArtifact [0]).score_label = "E" ∧ (mkArtifact [0]).score_class = "" ∧
    (mkArtifact [0]).score_class ≠ "text-neutral-400" := by
  refine ⟨?_, ?_, ?_⟩ <;> norm_num [mkArtifact, gradeTable, pyRound1] <;> decide

/-- C8 amended: `score_class` is a pure function of `score_label`, but the
fixed lookup (whose unmapped labels do default to `"text-neutral-400"`) is
only applied when some threshold fired; an artifact graded `"E"` keeps the
field default `""`. -/
theorem claim_C8_amended :
    (∀ scores : List ℚ,
      (mkArtifact scores).score_class =
        if (mkArtifact scores).score_label = "E" then ""
        else getScoreClass (mkArtifact scores).score_label) ∧
    (∀ label : String, label ∉ ["D", "C", "B", "A", "S", "SS", "SSS", "ACE", "ACE²"] →
      getScoreClass label = "text-neutral-400") := by
  constructor
  · intro scores
    have hs :=
      foldl_pair_snd (pyRound1 (scores.foldl (· + ·) 0)) gradeTable (by decide) ("E", "")
        (by simp)
    have hf := foldl_pair_fst (pyRound1 (scores.foldl (· + ·) 0)) gradeTable ("E", "")
    exact hs
  · intro label h
    unfold getScoreClass
    split <;> simp_all

/-- C8 amended witness: a graded artifact gets the lookup value, and an
unmapped label falls back to the baseline tag. -/
theorem claim_C8_amended_witness :
    (mkArtifact [12]).score_class =
      (if (mkArtifact [12]).score_label = "E" then ""
       else getScoreClass (mkArtifact [12]).score_label) ∧
    getScoreClass "X" = "text-neutral-400" :=
  ⟨claim_C8_amended.1 [12], claim_C8_amended.2 "X" (by decide)⟩

/-- C5 counterexample: with ten characters `gen_button` computes a single
page, yet (refresh being offered — the parameter's default) it appends a
navigation row holding the refresh control, so the output has four rows,
not the three bare grid rows the claim promises. -/
theorem claim_C5_counterexample :
    genButtonAllPage ["n1", "n2", "n3", "n4", "n5", "n6", "n7", "n8", "n9", "n10"] = 1 ∧
    (genButton ["n1", "n2", "n3", "n4", "n5", "n6", "n7", "n8", "n9", "n10"] 1 2 1 true).length = 4 ∧
    (genButton ["n1", "n2", "n3", "n4", "n5", "n6", "n7", "n8", "n9", "n10"] 1 2 1 true).getLast? =
      some [updateButton 1 2] := by
  refine ⟨by decide, by decide, by decide⟩

/-- C5 amended: rows of 4, pages of 3 rows, total pages
`⌈rows / 3⌉`; ten all-named characters give one page and — provided no
refresh control is offered — no navigation row; thirteen give two pages,
page 1 of 2 carries a "next" control and no "previous", page 2 of 2
carries "previous" and no "next" (the navigation rows are exactly
`[indicator, next]` and `[previous, indicator]`). -/
theorem claim_C5_amended (names : List String) (u uid : ℕ)
    (hne : ∀ n ∈ names, n ≠ "") :
    (names.length = 10 →
      genButtonAllPage names = 1 ∧
      genButton names u uid 1 false = chunks4 (names.map (charButton u uid))) ∧
    (names.length = 13 →
      genButtonAllPage names = 2 ∧
      genButton names u uid 1 false =
        (chunks4 (names.map (charButton u uid))).take 3
          ++ [[pageIndicatorButton u uid 1 2, nextButton u uid 2]] ∧
      genButton names u uid 2 false =
        (chunks4 (names.map (charButton u uid))).drop 3
          ++ [[prevButton u uid 1, pageIndicatorButton u uid 2 2]]) := by
  have h1 : names.filter (fun n => n ≠ "") = names :=
    List.filter_eq_self.mpr (fun a ha => by simpa using hne a ha)
  constructor
  · intro h10
    have hrows : (chunks4 (names.map (charButton u uid))).length = 3 := by
      rw [chunks4_length, List.length_map, h10]
    constructor
    · unfold genButtonAllPage
      rw [h1, chunks4_length, List.length_map, h10]
    · simp only [genButton, h1]
      norm_num [hrows]
  · intro h13
    have hrows : (chunks4 (names.map (charButton u uid))).length = 4 := by
      rw [chunks4_length, List.length_map, h13]
    refine ⟨?_, ?_, ?_⟩
    · unfold genButtonAllPage
      rw [h1, chunks4_length, List.length_map, h13]
    · simp only [genButton, h1]
      norm_num [hrows]
      simp
    · simp only [genButton, h1]
      norm_num [hrows]
      rw [if_neg (by simp)]
      rw [List.take_of_length_le (by rw [List.length_drop, hrows]; norm_num)]

/-- C5 amended witness: the 13-character page-1 shape at a concrete roster. -/
theorem claim_C5_amended_witness :
    genButtonAllPage ["a1", "a2", "a3", "a4", "a5", "a6", "a7", "a8", "a9", "a10", "a11", "a12", "a13"] = 2 ∧
    genButton ["a1", "a2", "a3", "a4", "a5", "a6", "a7", "a8", "a9", "a10", "a11", "a12", "a13"] 1 2 1 false =
      (chunks4 ((["a1", "a2", "a3", "a4", "a5", "a6", "a7", "a8", "a9", "a10", "a11", "a12", "a13"]).map
        (charButton 1 2))).take 3
        ++ [[pageIndicatorButton 1 2 1 2, nextButton 1 2 2]] := by
  have h :=
    (claim_C5_amended ["a1", "a2", "a3", "a4", "a5", "a6", "a7", "a8", "a9", "a10", "a11", "a12", "a13"]
      1 2 (by decide)).2 rfl
  exact ⟨h.1, h.2.1⟩

/-- C6: a callback invoked by a user other than the one encoded in the
token is answered with the visible mismatch notice and nothing else: no
remote fetch, no cache or history write, no message edit or deletion, no
pagination change — for both the update-panel and the
selection/pagination callbacks. -/
theorem claim_C6_ownership (actingUser user_id uid : ℕ) (notice : String)
    (ttl ttl2 : ℤ) (o : FetchOracle Snapshot) (result : String)
    (history : Option Snapshot) (hne : actingUser ≠ user_id) :
    updatePlayerCardHandler actingUser user_id uid notice ttl o =
      [.answer (mismatchText notice) true] ∧
    getPlayerCardsHandler actingUser user_id uid result notice history ttl2 =
      [.answer (mismatchText notice) true] := by
  constructor
  · unfold updatePlayerCardHandler
    rw [if_pos hne]
  · unfold getPlayerCardsHandler
    rw [if_pos hne]

/-- C6 witness: user 2 presses user 1's buttons. -/
theorem claim_C6_ownership_witness :
    updatePlayerCardHandler 2 1 100 "n" 0
        ({ cached := none, remote := .ok ⟨some []⟩, merged := id } : FetchOracle Snapshot) =
      [.answer (mismatchText "n") true] ∧
    getPlayerCardsHandler 2 1 100 "Klee" "n" none 0 =
      [.answer (mismatchText "n") true] :=
  claim_C6_ownership 2 1 100 "n" 0 0
    ({ cached := none, remote := .ok ⟨some []⟩, merged := id } : FetchOracle Snapshot)
    "Klee" none (by decide)

/-- C7 counterexample: with zero characters but the refresh control
offered (`update_button=True`, the parameter's default), `gen_button`
still emits a navigation row — the claim's "navigation row omitted for
every refresh-allowed setting" fails. -/
theorem claim_C7_counterexample :
    genButton [] 1 2 1 true ≠ [] ∧ genButton [] 1 2 1 true = [[updateButton 1 2]] := by
  refine ⟨by decide, by decide⟩

/-- C7 amended: with zero characters, or characters whose names are all
empty, page 1 and no refresh control offered, the keyboard is completely
empty — no selection grid and no navigation row (with refresh offered, or
on a page
greater than 1, a navigation row is still emitted). -/
theorem claim_C7_amended (names : List String) (u uid : ℕ)
    (h : ∀ n ∈ names, n = "") :
    genButton names u uid 1 false = [] := by
  have h1 : names.filter (fun n => n ≠ "") = [] := by
    rw [List.filter_eq_nil_iff]
    intro a ha
    simpa using h a ha
  simp only [genButton]
  rw [h1]
  simp [chunks4]

/-- C7 amended witness: two empty-named characters. -/
theorem claim_C7_amended_witness : genButton ["", ""] 3 4 1 false = [] :=
  claim_C7_amended ["", ""] 3 4 (by decide)

/-- C9 counterexample: a stored value that deserializes to the non-empty
list `[1]` makes `WikiCache.get` re-run `json.loads` on the integer
element outside the `try` guard, and the `TypeError` propagates to the
caller instead of yielding the miss result. -/
theorem claim_C9_counterexample :
    wikiGet (fun s => if s = "[1]" then .ok (.pyList [.pyInt 1]) else .error ())
      (some "[1]") = .error () := rfl

/-- C9 amended: `get` never raises on an absent key or on a stored value
whose top-level deserialization fails (both yield the miss result `[]`),
and a non-list value is returned as-is; but the element-wise
deserialization of a non-empty list runs outside the guard, so its result
— including a raised element-level failure — propagates to the caller. -/
theorem claim_C9_amended :
    (∀ loads : String → Except Unit PyObj, wikiGet loads none = .ok (.pyList [])) ∧
    (∀ (loads : String → Except Unit PyObj) (s : String),
      loads s = .error () → wikiGet loads (some s) = .ok (.pyList [])) ∧
    (∀ (loads : String → Except Unit PyObj) (s : String) (v : PyObj),
      loads s = .ok v → (∀ xs, v ≠ .pyList xs) → wikiGet loads (some s) = .ok v) ∧
    (∀ (loads : String → Except Unit PyObj) (s : String) (xs : List PyObj),
      loads s = .ok (.pyList xs) → xs ≠ [] →
      wikiGet loads (some s) = (xs.mapM (itemLoads loads)).map PyObj.pyList) := by
  refine ⟨fun loads => rfl, fun loads s h => ?_, fun loads s v h hv => ?_, fun loads s xs h hxs => ?_⟩
  · simp [wikiGet, h]
  · cases v with
    | pyList ys => exact absurd rfl (hv ys)
    | pyNone => simp [wikiGet, h]
    | pyInt n => simp [wikiGet, h]
    | pyStr t => simp [wikiGet, h]
    | pyDict kvs => simp [wikiGet, h]
  · have hpos : 0 < xs.length := List.length_pos.mpr hxs
    simp [wikiGet, h, hpos]

/-- C9 amended witness: absent key and malformed top-level value both
give the miss result. -/
theorem claim_C9_amended_witness :
    wikiGet (fun _ => .error ()) none = .ok (.pyList []) ∧
    wikiGet (fun _ => .error ()) (some "bad") = .ok (.pyList []) :=
  ⟨claim_C9_amended.1 (fun _ => .error ()), claim_C9_amended.2.1 (fun _ => .error ()) "bad" rfl⟩

/-- C10: both render paths clone the snapshot to a fresh reference before
replacing image URLs in place, so after a render the object at the
original reference — all of its fields, including every image URL — is
unchanged, for the character card render and for the stats render. -/
theorem claim_C10_no_snapshot_mutation (hc : ℕ → CharacterData)
    (hs : ℕ → UserStatsData) (orig fresh orig2 fresh2 : ℕ)
    (mirror mirror2 : String → String)
    (h1 : fresh ≠ orig) (h2 : fresh2 ≠ orig2) :
    (renderTemplateRun hc orig fresh mirror).1 orig = hc orig ∧
    (statsRenderRun hs orig2 fresh2 mirror2).1 orig2 = hs orig2 := by
  constructor
  · simp [renderTemplateRun, heapSet, Ne.symm h1]
  · simp [statsRenderRun, heapSet, Ne.symm h2]

/-- C10 witness: a concrete two-cell heap with the clone at reference 1. -/
theorem claim_C10_no_snapshot_mutation_witness :
    (renderTemplateRun (fun _ => ⟨"Klee", "https://b", ["https://s"], [], ["https://e"]⟩)
        0 1 (fun s => "local/" ++ s)).1 0 =
      (fun _ : ℕ => (⟨"Klee", "https://b", ["https://s"], [], ["https://e"]⟩ : CharacterData)) 0 ∧
    (statsRenderRun (fun _ => ⟨[⟨"Mondstadt", "https://i", "https://c"⟩]⟩) 0 1
        (fun s => "local/" ++ s)).1 0 =
      (fun _ : ℕ => (⟨[⟨"Mondstadt", "https://i", "https://c"⟩]⟩ : UserStatsData)) 0 :=
  claim_C10_no_snapshot_mutation
    (fun _ => ⟨"Klee", "https://b", ["https://s"], [], ["https://e"]⟩)
    (fun _ => ⟨[⟨"Mondstadt", "https://i", "https://c"⟩]⟩)
    0 1 0 1 (fun s => "local/" ++ s) (fun s => "local/" ++ s) (by decide) (by decide)

end GenshinGram
